import Mathlib

/-!
Shallow embedding of the ShareTheBill bill ledger:
the bill data model (`src/lib/types.ts`), the storage operations
(`src/lib/bill-storage.ts`) and the API route handlers for bill creation,
payment recording, metadata patching, deletion and reads
(`src/app/api/bills/[id]/route.ts`, which bundles the `/api/bills`,
`/api/bills/[id]` and `/api/bills/[id]/pay` handlers).

Money amounts (JS `number` used as 2-decimal currency values) are embedded
as rationals; `Math.round(x * 100) / 100` becomes `jsRound2` (Mathlib's
`round` is `⌊x + 1/2⌋`, exactly JS `Math.round` semantics of rounding
half toward positive infinity).  Timestamps, ids and hashes are opaque
strings.  The key-value store's visible state for a single bill id is
`StoreState`: the bill is absent, stored, or the store errors on access.
-/

namespace ShareTheBill

/-- Participant payment status: `'pending' | 'paid' | 'failed'` of `types.ts`. -/
inductive PStatus
  | pending
  | paid
  | failed
deriving DecidableEq, Repr

/-- Bill status: `'draft' | 'pending' | 'collecting' | 'completed' | 'cancelled'`. -/
inductive BStatus
  | draft
  | pending
  | collecting
  | completed
  | cancelled
deriving DecidableEq, Repr

/-- Split type: `'equal' | 'custom' | 'percentage'`. -/
inductive SplitType
  | equal
  | custom
  | percentage
deriving DecidableEq, Repr

/-- `BillParticipant` of `types.ts` (display-only fields kept as in source). -/
structure BillParticipant where
  fid : Nat
  username : Option String
  displayName : Option String
  pfpUrl : Option String
  amountOwed : ℚ
  paidAt : Option String
  paymentHash : Option String
  status : PStatus
deriving DecidableEq, Repr

/-- `Bill` of `types.ts`, plus `creatorWalletAddress` which the creation
route adds to the stored document. -/
structure Bill where
  id : String
  title : String
  description : Option String
  totalAmount : ℚ
  creatorFid : Nat
  creatorUsername : Option String
  creatorWalletAddress : String
  participants : List BillParticipant
  status : BStatus
  createdAt : String
  updatedAt : String
  dueDate : Option String
  currency : String
  splitType : SplitType
  tags : List String
deriving DecidableEq, Repr

/-- JS `Math.round(x * 100) / 100`: round to 2 decimal places, halves
toward positive infinity (Mathlib `round` is `⌊x + 1/2⌋`). -/
def jsRound2 (x : ℚ) : ℚ :=
  ((round (x * 100) : ℤ) : ℚ) / 100

/-- One element of the `participants` array of the POST `/api/bills` body. -/
structure ParticipantInput where
  fid : Nat
  username : Option String
  displayName : Option String
  pfpUrl : Option String
  amount : Option ℚ
  percentage : Option ℚ
deriving DecidableEq, Repr

/-- The per-participant raw share before rounding, from the `map` in
POST `/api/bills`: `amountOwed` starts at 0; equal split divides the
total by the participant count; custom takes `p.amount` when truthy
(absent or `0` is falsy and leaves 0); percentage takes
`total * p.percentage / 100` when `p.percentage` is truthy. -/
def rawOwed (splitType : SplitType) (totalAmount : ℚ) (n : Nat)
    (p : ParticipantInput) : ℚ :=
  match splitType with
  | SplitType.equal => totalAmount / (n : ℚ)
  | SplitType.custom =>
    match p.amount with
    | some a => if a = 0 then 0 else a
    | none => 0
  | SplitType.percentage =>
    match p.percentage with
    | some q => if q = 0 then 0 else totalAmount * q / 100
    | none => 0

/-- Build the stored participant from an input participant:
`amountOwed` is the rounded raw share, status starts `pending`. -/
def processParticipant (splitType : SplitType) (totalAmount : ℚ) (n : Nat)
    (p : ParticipantInput) : BillParticipant :=
  { fid := p.fid
    username := p.username
    displayName := p.displayName
    pfpUrl := p.pfpUrl
    amountOwed := jsRound2 (rawOwed splitType totalAmount n p)
    paidAt := none
    paymentHash := none
    status := PStatus.pending }

/-- Body of POST `/api/bills`. -/
structure CreateBillRequest where
  title : String
  description : Option String
  totalAmount : ℚ
  creatorFid : Nat
  creatorUsername : Option String
  participants : List ParticipantInput
  splitType : SplitType
  currency : String
  dueDate : Option String
  tags : List String
deriving DecidableEq, Repr

/-- Distinct error branches of POST `/api/bills`. -/
inductive CreateError
  | missingFields
  | nonPositiveTotal
  | splitMismatch
  | noWalletAddress
  | storageFailed
deriving DecidableEq, Repr

/-- `reduce((sum, p) => sum + p.amountOwed, 0)`. -/
def sumOwed (ps : List BillParticipant) : ℚ :=
  (ps.map (fun p => p.amountOwed)).sum

/-- POST `/api/bills`: validates required fields (JS truthiness: a missing
title is the empty string, a missing/zero total or creator fid is falsy,
missing/empty participants), rejects non-positive totals, computes the
split, rejects when the split sum differs from the total by more than
0.01, resolves the creator wallet address (`walletAddress` is the
resolver's answer) and otherwise persists the new bill with status
`pending`.  `newId` and `now` stand for `nanoid()` and the current
timestamp.

Modeling note: the source performs the epsilon comparison
(`Math.abs(totalSplit - totalAmount) > 0.01`) on IEEE-754 doubles, while
this embedding uses exact rationals.  The two verdicts agree whenever the
exact difference is strictly below or strictly above 0.01; when it is
exactly 0.01 the double rounding error decides, and the verdicts can
differ.  Equal split of 100 over 3 (exact difference 0.01) is rejected by
the program, whose double difference is 0.010000000000005116 > 0.01;
equal split of 10 over 3 (exact difference also 0.01) is accepted, the
double difference being 0.009999999999999787.  Concrete instances below
therefore use 10 over 3, where the rational model and the program agree
on acceptance. -/
def createBill (req : CreateBillRequest) (walletAddress : Option String)
    (newId : String) (now : String) : Except CreateError Bill :=
  if req.title = "" ∨ req.totalAmount = 0 ∨ req.creatorFid = 0 ∨
      req.participants = [] then
    Except.error CreateError.missingFields
  else if req.totalAmount ≤ 0 then
    Except.error CreateError.nonPositiveTotal
  else
    let ps := req.participants.map
      (processParticipant req.splitType req.totalAmount req.participants.length)
    if |sumOwed ps - req.totalAmount| > 1/100 then
      Except.error CreateError.splitMismatch
    else
      match walletAddress with
      | none => Except.error CreateError.noWalletAddress
      | some addr =>
        Except.ok
          { id := newId
            title := req.title
            description := req.description
            totalAmount := req.totalAmount
            creatorFid := req.creatorFid
            creatorUsername := req.creatorUsername
            creatorWalletAddress := addr
            participants := ps
            status := BStatus.pending
            createdAt := now
            updatedAt := now
            dueDate := req.dueDate
            currency := req.currency
            splitType := req.splitType
            tags := req.tags }

/-- `paymentData` argument of `BillStorage.updateParticipantPayment`. -/
structure PaymentData where
  paidAt : String
  paymentHash : String
  status : PStatus
deriving DecidableEq, Repr

/-- `bill.participants[findIndex(p => p.fid === fid)] = {...p, ...paymentData}`:
replace the first participant with the given fid by its payment-merged
copy; `none` when no participant matches (`findIndex === -1`). -/
def setFirstPayment : List BillParticipant → Nat → PaymentData →
    Option (List BillParticipant)
  | [], _, _ => none
  | p :: rest, fid, pd =>
    if p.fid = fid then
      some ({ p with
                paidAt := some pd.paidAt
                paymentHash := some pd.paymentHash
                status := pd.status } :: rest)
    else
      match setFirstPayment rest fid pd with
      | none => none
      | some rest' => some (p :: rest')

/-- `BillStorage.updateParticipantPayment` composed with the
`BillStorage.updateBill` write-back it performs: merge the payment data
into the matching participant, then set the bill status to `completed`
when every participant of the updated list is `paid` (otherwise the
stored status is kept), bumping `updatedAt`. -/
def updateParticipantPayment (bill : Bill) (fid : Nat) (pd : PaymentData)
    (now : String) : Option Bill :=
  match setFirstPayment bill.participants fid pd with
  | none => none
  | some ps' =>
    some { bill with
             participants := ps'
             status :=
               if ∀ p ∈ ps', p.status = PStatus.paid then BStatus.completed
               else bill.status
             updatedAt := now }

/-- Distinct error branches of POST `/api/bills/[id]/pay`. -/
inductive PayError
  | missingFields
  | billNotFound
  | participantNotFound
  | alreadyPaid
  | amountMismatch
  | storageFailed
deriving DecidableEq, Repr

/-- POST `/api/bills/[id]/pay`: reject JS-falsy `participantFid`, `amount`
or `transactionHash` before any lookup; 404 when the bill or the
participant is absent; reject an already-`paid` participant; reject when
`|amount - amountOwed| > 0.01`; otherwise record the payment through
`updateParticipantPayment` with status `paid`, `paidAt = now` and
`paymentHash = transactionHash`. -/
def recordPayment (store : Option Bill) (participantFid : Nat) (amount : ℚ)
    (transactionHash : String) (now : String) : Except PayError Bill :=
  if participantFid = 0 ∨ amount = 0 ∨ transactionHash = "" then
    Except.error PayError.missingFields
  else
    match store with
    | none => Except.error PayError.billNotFound
    | some bill =>
      match bill.participants.find? (fun q => q.fid == participantFid) with
      | none => Except.error PayError.participantNotFound
      | some participant =>
        if participant.status = PStatus.paid then
          Except.error PayError.alreadyPaid
        else if |amount - participant.amountOwed| > 1/100 then
          Except.error PayError.amountMismatch
        else
          match updateParticipantPayment bill participantFid
              { paidAt := now
                paymentHash := transactionHash
                status := PStatus.paid } now with
          | none => Except.error PayError.storageFailed
          | some b' => Except.ok b'

/-- Effect of one POST `/api/bills/[id]/pay` call on the stored bill:
the only store write on the route is the `updateParticipantPayment`
success path, so every error branch leaves the store as it was. -/
def payRouteStore (store : Option Bill) (participantFid : Nat) (amount : ℚ)
    (transactionHash : String) (now : String) :
    Option Bill × Except PayError Bill :=
  match recordPayment store participantFid amount transactionHash now with
  | Except.ok b' => (some b', Except.ok b')
  | Except.error e => (store, Except.error e)

/-- Body of PATCH `/api/bills/[id]`: the allow-listed fields (`title`,
`description`, `status`, `dueDate`, `tags`) together with representative
non-allow-listed fields a client might send; `some` means the key is
present in the request body. -/
structure PatchRequest where
  title : Option String
  description : Option String
  status : Option BStatus
  dueDate : Option String
  tags : Option (List String)
  totalAmount : Option ℚ
  participants : Option (List BillParticipant)
  id : Option String
  creatorFid : Option Nat
  createdAt : Option String
deriving DecidableEq, Repr

/-- The `filteredUpdates` spread of PATCH `/api/bills/[id]` composed with
`BillStorage.updateBill`: only keys on the `allowedUpdates` list survive
the filter, so only those five fields are merged over the existing bill;
`updatedAt` is bumped by `updateBill`. -/
def applyPatch (bill : Bill) (r : PatchRequest) (now : String) : Bill :=
  { bill with
      title := r.title.getD bill.title
      description :=
        match r.description with
        | some d => some d
        | none => bill.description
      status := r.status.getD bill.status
      dueDate :=
        match r.dueDate with
        | some d => some d
        | none => bill.dueDate
      tags := r.tags.getD bill.tags
      updatedAt := now }

/-- Error branches of PATCH `/api/bills/[id]`. -/
inductive PatchError
  | notFound
  | storageFailed
deriving DecidableEq, Repr

/-- PATCH `/api/bills/[id]`: 404 when the bill is absent, otherwise the
filtered update is applied. -/
def patchBill (store : Option Bill) (r : PatchRequest) (now : String) :
    Except PatchError Bill :=
  match store with
  | none => Except.error PatchError.notFound
  | some bill => Except.ok (applyPatch bill r now)

/-- Distinct error branches of DELETE `/api/bills/[id]`. -/
inductive DeleteError
  | missingFid
  | notFound
  | notCreator
  | hasPaidParticipant
  | storageFailed
deriving DecidableEq, Repr

/-- DELETE `/api/bills/[id]`: 404 when absent; then the creator check
(`bill.creatorFid !== parseInt(requestorFid)`); then the payment guard
(`participants.some(p => p.status === 'paid')`); in that order.  `.ok ()`
means the bill and its indexes are removed. -/
def deleteBill (store : Option Bill) (requestorFid : Nat) :
    Except DeleteError Unit :=
  match store with
  | none => Except.error DeleteError.notFound
  | some bill =>
    if bill.creatorFid ≠ requestorFid then
      Except.error DeleteError.notCreator
    else if bill.participants.any (fun p => p.status == PStatus.paid) then
      Except.error DeleteError.hasPaidParticipant
    else
      Except.ok ()

/-- Effect of one DELETE `/api/bills/[id]` call on the stored bill: the
route reaches `BillStorage.deleteBill` only past every guard, so every
error branch leaves the store as it was. -/
def deleteRouteStore (store : Option Bill) (requestorFid : Nat) :
    Option Bill × Except DeleteError Unit :=
  match deleteBill store requestorFid with
  | Except.ok _ => (none, Except.ok ())
  | Except.error e => (store, Except.error e)

/-- Visible state of the key-value store for one bill id on a read:
the key is absent, the bill is stored, or the store access throws. -/
inductive StoreState
  | absent
  | stored (b : Bill)
  | failure
deriving DecidableEq, Repr

/-- `BillStorage.getBill`: returns the stored bill; returns `null` both
when the key is absent and when the store access throws (the `catch`
branch returns `null`, as does the no-client branch). -/
def getBill : StoreState → Option Bill
  | StoreState.absent => none
  | StoreState.stored b => some b
  | StoreState.failure => none

/-- Outcome classes of GET `/api/bills/[id]` as the caller sees them. -/
inductive RouteOutcome
  | ok (b : Bill)
  | notFound
  | serverError
deriving DecidableEq, Repr

/-- GET `/api/bills/[id]`: a `null` from `getBill` is answered with the
404 "Bill not found" response; a stored bill is returned. -/
def getBillRoute (s : StoreState) : RouteOutcome :=
  match getBill s with
  | none => RouteOutcome.notFound
  | some b => RouteOutcome.ok b

/-- HTTP status code of each POST `/api/bills/[id]/pay` error branch. -/
def payStatusCode : PayError → Nat
  | PayError.missingFields => 400
  | PayError.billNotFound => 404
  | PayError.participantNotFound => 404
  | PayError.alreadyPaid => 400
  | PayError.amountMismatch => 400
  | PayError.storageFailed => 500

/-- HTTP status code of each DELETE `/api/bills/[id]` error branch. -/
def deleteStatusCode : DeleteError → Nat
  | DeleteError.missingFid => 400
  | DeleteError.notFound => 404
  | DeleteError.notCreator => 403
  | DeleteError.hasPaidParticipant => 400
  | DeleteError.storageFailed => 500

/-! ### Concrete instances used by counterexamples and witnesses -/

/-- A plain creation-request participant with no custom amount or
percentage supplied. -/
def pInput (fid : Nat) : ParticipantInput :=
  { fid := fid
    username := none
    displayName := some "p"
    pfpUrl := none
    amount := none
    percentage := none }

/-- Equal split of 10 over three participants: the program (in doubles)
and this model (in rationals) both accept it, with inexact shares. -/
def cReqEq3 : CreateBillRequest :=
  { title := "dinner"
    description := none
    totalAmount := 10
    creatorFid := 1
    creatorUsername := none
    participants := [pInput 1, pInput 2, pInput 3]
    splitType := SplitType.equal
    currency := "USDC"
    dueDate := none
    tags := [] }

/-- A stored pending participant owing `owed`. -/
def cPart (fid : Nat) (owed : ℚ) : BillParticipant :=
  { fid := fid
    username := none
    displayName := some "p"
    pfpUrl := none
    amountOwed := owed
    paidAt := none
    paymentHash := none
    status := PStatus.pending }

/-- The bill `createBill cReqEq3 (some "0xabc") "bill-1" "t0"` produces:
every participant owes 3.33, summing to 9.99. -/
def cBillEq3 : Bill :=
  { id := "bill-1"
    title := "dinner"
    description := none
    totalAmount := 10
    creatorFid := 1
    creatorUsername := none
    creatorWalletAddress := "0xabc"
    participants := [cPart 1 (333/100), cPart 2 (333/100), cPart 3 (333/100)]
    status := BStatus.pending
    createdAt := "t0"
    updatedAt := "t0"
    dueDate := none
    currency := "USDC"
    splitType := SplitType.equal
    tags := [] }

/-- A two-participant pending bill, 10 owed each. -/
def cBillPend2 : Bill :=
  { id := "bill-2"
    title := "lunch"
    description := none
    totalAmount := 20
    creatorFid := 1
    creatorUsername := none
    creatorWalletAddress := "0xabc"
    participants := [cPart 1 10, cPart 2 10]
    status := BStatus.pending
    createdAt := "t0"
    updatedAt := "t0"
    dueDate := none
    currency := "USDC"
    splitType := SplitType.equal
    tags := [] }

/-- A stored participant already `paid`. -/
def cPaidPart (fid : Nat) (owed : ℚ) : BillParticipant :=
  { cPart fid owed with
      status := PStatus.paid
      paidAt := some "t1"
      paymentHash := some "0xhash" }

/-- Creator fid 1 has already paid; participant 2 is still pending. -/
def cBillPaid : Bill :=
  { cBillPend2 with
      id := "bill-3"
      participants := [cPaidPart 1 10, cPart 2 10] }

/-- Three pending participants but a stored status of `completed`. -/
def cBillStale3 : Bill :=
  { cBillPend2 with
      id := "bill-4"
      totalAmount := 30
      participants := [cPart 1 10, cPart 2 10, cPart 3 10]
      status := BStatus.completed }

/-- Participant 2 owes exactly 0. -/
def cBillZero : Bill :=
  { cBillPend2 with
      id := "bill-5"
      participants := [cPart 1 20, cPart 2 0] }

/-- A single-participant pending bill. -/
def cBillSingle : Bill :=
  { cBillPend2 with
      id := "bill-6"
      totalAmount := 10
      participants := [cPart 1 10] }

/-- A PATCH body with no key present. -/
def emptyPatch : PatchRequest :=
  { title := none
    description := none
    status := none
    dueDate := none
    tags := none
    totalAmount := none
    participants := none
    id := none
    creatorFid := none
    createdAt := none }

/-- A PATCH body setting only `status` to `completed`. -/
def cPatchCompleted : PatchRequest :=
  { emptyPatch with status := some BStatus.completed }

/-! ### Helper lemmas -/

theorem setFirstPayment_some_of_find? {ps : List BillParticipant} {fid : Nat}
    {p : BillParticipant} (pd : PaymentData)
    (h : ps.find? (fun q => q.fid == fid) = some p) :
    ∃ ps', setFirstPayment ps fid pd = some ps' := by
  induction ps with
  | nil => simp [List.find?] at h
  | cons q rest ih =>
    by_cases hq : q.fid = fid
    · cases hsp : setFirstPayment (q :: rest) fid pd with
      | some ps' => exact ⟨ps', rfl⟩
      | none => rw [setFirstPayment, if_pos hq] at hsp; cases hsp
    · simp only [List.find?_cons_of_neg, hq, not_false_iff, beq_iff_eq] at h
      obtain ⟨ps', hps'⟩ := ih h
      exact ⟨q :: ps', by simp [setFirstPayment, hq, hps']⟩

theorem setFirstPayment_map_amountOwed {ps : List BillParticipant} {fid : Nat}
    {pd : PaymentData} {ps' : List BillParticipant}
    (h : setFirstPayment ps fid pd = some ps') :
    ps'.map (fun p => p.amountOwed) = ps.map (fun p => p.amountOwed) := by
  induction ps generalizing ps' with
  | nil => simp [setFirstPayment] at h
  | cons q rest ih =>
    rw [setFirstPayment] at h
    by_cases hq : q.fid = fid
    · rw [if_pos hq] at h
      cases h
      simp
    · rw [if_neg hq] at h
      cases hrest : setFirstPayment rest fid pd with
      | none => rw [hrest] at h; cases h
      | some rest' =>
        rw [hrest] at h
        cases h
        simp [ih hrest]

theorem createBill_ok {req : CreateBillRequest} {wallet : Option String}
    {newId now : String} {b : Bill}
    (h : createBill req wallet newId now = Except.ok b) :
    b.participants = req.participants.map
      (processParticipant req.splitType req.totalAmount req.participants.length) ∧
    b.totalAmount = req.totalAmount ∧
    |sumOwed b.participants - req.totalAmount| ≤ 1/100 ∧
    b.status = BStatus.pending := by
  simp only [createBill] at h
  split at h
  · cases h
  · split at h
    · cases h
    · split at h
      · cases h
      · split at h
        · cases h
        · simp only [Except.ok.injEq] at h
          subst h
          exact ⟨rfl, rfl, le_of_not_lt (by assumption), rfl⟩

theorem updateParticipantPayment_some {bill : Bill} {fid : Nat}
    {pd : PaymentData} {now : String} {b' : Bill}
    (h : updateParticipantPayment bill fid pd now = some b') :
    ∃ ps', setFirstPayment bill.participants fid pd = some ps' ∧
      b'.participants = ps' ∧
      b'.totalAmount = bill.totalAmount ∧
      b'.status = (if ∀ p ∈ ps', p.status = PStatus.paid then BStatus.completed
                   else bill.status) := by
  unfold updateParticipantPayment at h
  cases hsp : setFirstPayment bill.participants fid pd with
  | none => rw [hsp] at h; cases h
  | some ps' =>
    rw [hsp] at h
    cases h
    exact ⟨ps', rfl, rfl, rfl, rfl⟩

theorem recordPayment_ok_update {bill : Bill} {fid : Nat} {amt : ℚ}
    {tx now : String} {b' : Bill}
    (h : recordPayment (some bill) fid amt tx now = Except.ok b') :
    updateParticipantPayment bill fid
      { paidAt := now, paymentHash := tx, status := PStatus.paid } now
      = some b' := by
  simp only [recordPayment] at h
  split at h
  · cases h
  · split at h
    · cases h
    · split at h
      · cases h
      · split at h
        · cases h
        · rename_i hupd
          split at h
          · cases h
          · rename_i b'' hupd'
            cases h
            exact hupd'

/-- The payment-merged copy of a participant, as `setFirstPayment`
produces it for a successful payment. -/
def paidOf (p : BillParticipant) (t tx : String) : BillParticipant :=
  { p with paidAt := some t, paymentHash := some tx, status := PStatus.paid }

/-- Result of participant 1 paying 10 on `cBillSingle`. -/
def cBillSinglePaid : Bill :=
  { cBillSingle with
      participants := [paidOf (cPart 1 10) "t1" "0xt"]
      status := BStatus.completed
      updatedAt := "t1" }

/-- Result of participant 1 paying 10 on `cBillPend2`. -/
def cBillPend2After : Bill :=
  { cBillPend2 with
      participants := [paidOf (cPart 1 10) "t1" "0xt", cPart 2 10]
      updatedAt := "t1" }

/-- Result of participant 1 paying 10 on `cBillStale3`. -/
def cBillStale3After : Bill :=
  { cBillStale3 with
      participants := [paidOf (cPart 1 10) "t1" "0xt", cPart 2 10, cPart 3 10]
      updatedAt := "t1" }

/-- Result of participant 2 paying 0.01 on `cBillZero`. -/
def cBillZeroAfter : Bill :=
  { cBillZero with
      participants := [cPart 1 20, paidOf (cPart 2 0) "t1" "0xt"]
      updatedAt := "t1" }

/-! ### Concrete evaluations -/

theorem eval_createBill_eq3 :
    createBill cReqEq3 (some "0xabc") "bill-1" "t0" = Except.ok cBillEq3 := by
  norm_num [createBill, cReqEq3, pInput, processParticipant, rawOwed, jsRound2,
    sumOwed, cBillEq3, cPart, round_eq]
  simp
  norm_num [abs_le]

theorem eval_pay_single :
    recordPayment (some cBillSingle) 1 10 "0xt" "t1" = Except.ok cBillSinglePaid := by
  norm_num [recordPayment, cBillSingle, cBillPend2, cPart, updateParticipantPayment,
    setFirstPayment, List.find?, cBillSinglePaid, paidOf]
  simp

theorem eval_pay_pend2 :
    recordPayment (some cBillPend2) 1 10 "0xt" "t1" = Except.ok cBillPend2After := by
  norm_num [recordPayment, cBillPend2, cPart, updateParticipantPayment,
    setFirstPayment, List.find?, cBillPend2After, paidOf]
  simp

theorem eval_pay_stale3 :
    recordPayment (some cBillStale3) 1 10 "0xt" "t1" = Except.ok cBillStale3After := by
  norm_num [recordPayment, cBillStale3, cBillPend2, cPart, updateParticipantPayment,
    setFirstPayment, List.find?, cBillStale3After, paidOf]
  simp

theorem eval_pay_zero :
    recordPayment (some cBillZero) 2 (1/100) "0xt" "t1" = Except.ok cBillZeroAfter := by
  norm_num [recordPayment, cBillZero, cBillPend2, cPart, updateParticipantPayment,
    setFirstPayment, List.find?, cBillZeroAfter, paidOf]
  simp
  norm_num [abs_le]

/-! ### Claims -/

/-- **C1** (counterexample).  The equal split of 10 over 3 participants is
accepted by `createBill` (also by the program in doubles, whose difference
0.009999999999999787 passes the epsilon check), yet the participant shares
sum to 9.99, not to the `totalAmount` of 10: the sum is only within the
0.01 epsilon, not exact. -/
theorem acceptedSumNotExact_cex :
    (createBill cReqEq3 (some "0xabc") "bill-1" "t0").toOption.map
        (fun b => sumOwed b.participants) = some (999/100) ∧
      ((999 : ℚ)/100 ≠ 10) := by
  rw [eval_createBill_eq3]
  constructor
  · norm_num [cBillEq3, cPart, sumOwed, Except.toOption]
  · norm_num

/-- **C1** (amended).  For every bill accepted by `createBill` the sum of
`participants[].amountOwed` is within 0.01 of `totalAmount` — not exactly
equal in general: the accepted equal split of 10 over 3 sums to 9.99 —
and no later operation alters any `amountOwed` or the
`totalAmount`: `recordPayment` preserves the owed amounts and the total,
and a metadata PATCH (`applyPatch`) leaves the participant list and the
total untouched. -/
theorem billSum_withinEpsilon_and_amounts_frozen :
    (∀ (req : CreateBillRequest) (wallet : Option String) (newId now : String)
        (b : Bill), createBill req wallet newId now = Except.ok b →
        |sumOwed b.participants - b.totalAmount| ≤ 1/100) ∧
    (∀ (bill : Bill) (fid : Nat) (amt : ℚ) (tx now : String) (b' : Bill),
        recordPayment (some bill) fid amt tx now = Except.ok b' →
        b'.participants.map (fun p => p.amountOwed)
            = bill.participants.map (fun p => p.amountOwed) ∧
          b'.totalAmount = bill.totalAmount) ∧
    (∀ (bill : Bill) (r : PatchRequest) (now : String),
        (applyPatch bill r now).participants = bill.participants ∧
          (applyPatch bill r now).totalAmount = bill.totalAmount) := by
  refine ⟨?_, ?_, ?_⟩
  · intro req wallet newId now b h
    obtain ⟨-, ht, hs, -⟩ := createBill_ok h
    rw [ht]
    exact hs
  · intro bill fid amt tx now b' h
    obtain ⟨ps', hsp, hps, htot, -⟩ :=
      updateParticipantPayment_some (recordPayment_ok_update h)
    refine ⟨?_, htot⟩
    rw [hps]
    exact setFirstPayment_map_amountOwed hsp
  · intro bill r now
    exact ⟨rfl, rfl⟩

/-- **C1** (witness): the amended theorem applied to the concrete equal
split of 10 over 3, to a concrete payment, and to a concrete PATCH. -/
theorem billSum_withinEpsilon_witness :
    |sumOwed cBillEq3.participants - cBillEq3.totalAmount| ≤ 1/100 ∧
    (cBillPend2After.participants.map (fun p => p.amountOwed)
        = cBillPend2.participants.map (fun p => p.amountOwed) ∧
      cBillPend2After.totalAmount = cBillPend2.totalAmount) ∧
    ((applyPatch cBillPend2 cPatchCompleted "t2").participants
        = cBillPend2.participants ∧
      (applyPatch cBillPend2 cPatchCompleted "t2").totalAmount
        = cBillPend2.totalAmount) :=
  ⟨billSum_withinEpsilon_and_amounts_frozen.1 cReqEq3 (some "0xabc") "bill-1"
      "t0" cBillEq3 eval_createBill_eq3,
    billSum_withinEpsilon_and_amounts_frozen.2.1 cBillPend2 1 10 "0xt" "t1"
      cBillPend2After eval_pay_pend2,
    billSum_withinEpsilon_and_amounts_frozen.2.2 cBillPend2 cPatchCompleted "t2"⟩

/-- **C2** (counterexample).  In the equal split of 10 over 3 accepted by
`createBill` (and by the program in doubles), the first participant
receives 3.33 like everyone else, not the 3.34 the claimed
floor-plus-remainder scheme would assign: there is no remainder
absorption by the first participant.  (The claim instance of 100 over 3
cannot even arise: the program rejects that creation, its double epsilon
difference being 0.010000000000005116 > 0.01.) -/
theorem equalSplit_firstAbsorbs_cex :
    (createBill cReqEq3 (some "0xabc") "bill-1" "t0").toOption.map
        (fun b => b.participants.map (fun p => p.amountOwed))
      = some [333/100, 333/100, 333/100] ∧
    ((333 : ℚ)/100 ≠ 334/100) := by
  rw [eval_createBill_eq3]
  constructor
  · simp [cBillEq3, cPart, Except.toOption]
  · norm_num

/-- **C2** (amended).  For every equal split accepted by `createBill`,
every participant — the first included — is assigned the same amount
`round(totalAmount / n * 100) / 100` (JS `Math.round`, halves up); no
participant absorbs a remainder, so the shares of an accepted inexact
equal split are all equal — 10 over 3 gives `[3.33, 3.33, 3.33]` summing
to 9.99, accepted because the difference passes the 0.01 validation
epsilon — and the first participant never receives a corrected share. -/
theorem equalSplit_uniform_rounded_share :
    ∀ (req : CreateBillRequest) (wallet : Option String) (newId now : String)
      (b : Bill), req.splitType = SplitType.equal →
      createBill req wallet newId now = Except.ok b →
      b.participants.map (fun p => p.amountOwed)
        = req.participants.map
            (fun _ => jsRound2 (req.totalAmount / (req.participants.length : ℚ))) := by
  intro req wallet newId now b hsplit h
  obtain ⟨hp, -, -, -⟩ := createBill_ok h
  rw [hp, List.map_map]
  apply List.map_congr_left
  intro a _
  simp [Function.comp, processParticipant, rawOwed, hsplit]

/-- **C2** (witness): the amended theorem applied to the equal split of
10 over 3. -/
theorem equalSplit_uniform_rounded_share_witness :
    cBillEq3.participants.map (fun p => p.amountOwed)
      = cReqEq3.participants.map
          (fun _ => jsRound2 (cReqEq3.totalAmount / (cReqEq3.participants.length : ℚ))) :=
  equalSplit_uniform_rounded_share cReqEq3 (some "0xabc") "bill-1" "t0"
    cBillEq3 rfl eval_createBill_eq3

/-- **C3** (counterexample).  On a bill whose stored status is already
`completed` while three participants are still `pending`, a successful
`recordPayment` leaves the status `completed` although two participants
remain unpaid: the status is not recomputed from the participant list,
only the all-paid upgrade is applied. -/
theorem completionIff_cex :
    (recordPayment (some cBillStale3) 1 10 "0xt" "t1").toOption.map
        (fun b => (b.status, b.participants.map (fun p => p.status)))
      = some (BStatus.completed, [PStatus.paid, PStatus.pending, PStatus.pending]) := by
  norm_num [recordPayment, cBillStale3, cBillPend2, cPart, updateParticipantPayment,
    setFirstPayment, List.find?, paidOf, Except.toOption]
  simp

/-- **C3** (amended).  If the bill's stored status is not already
`completed` before the call, then immediately after every successful
`recordPayment` the status equals `completed` if and only if every
participant of the (freshly updated) participant list is `paid`; the code
only ever upgrades the status to `completed` from a recomputed all-paid
check and otherwise keeps the stored status, so the equivalence can fail
only for a bill that already carried a stale `completed` status. -/
theorem completionIff_unless_stale :
    ∀ (bill : Bill) (fid : Nat) (amt : ℚ) (tx now : String) (b' : Bill),
      bill.status ≠ BStatus.completed →
      recordPayment (some bill) fid amt tx now = Except.ok b' →
      (b'.status = BStatus.completed ↔
        ∀ p ∈ b'.participants, p.status = PStatus.paid) := by
  intro bill fid amt tx now b' hst h
  obtain ⟨ps', hsp, hps, -, hstatus⟩ :=
    updateParticipantPayment_some (recordPayment_ok_update h)
  subst hps
  constructor
  · intro hc
    by_contra hnp
    rw [hstatus, if_neg hnp] at hc
    exact hst hc
  · intro hall
    rw [hstatus, if_pos hall]

/-- **C3** (witness): the amended theorem applied to the single-participant
pending bill, whose payment completes it. -/
theorem completionIff_unless_stale_witness :
    cBillSinglePaid.status = BStatus.completed ↔
      ∀ p ∈ cBillSinglePaid.participants, p.status = PStatus.paid :=
  completionIff_unless_stale cBillSingle 1 10 "0xt" "t1" cBillSinglePaid
    (by decide) eval_pay_single

/-- **C4** (counterexample).  Recording the first payment on a pending
two-participant bill leaves the bill status `pending` — it does not
transition to `collecting`. -/
theorem pendingToCollecting_cex :
    (recordPayment (some cBillPend2) 1 10 "0xt" "t1").toOption.map
        (fun b => (b.status, b.participants.map (fun p => p.status)))
      = some (BStatus.pending, [PStatus.paid, PStatus.pending]) := by
  norm_num [recordPayment, cBillPend2, cPart, updateParticipantPayment,
    setFirstPayment, List.find?, paidOf, Except.toOption]
  simp

/-- **C4** (amended).  A successful `recordPayment` never moves a bill to
`collecting`: the status either becomes `completed` (exactly when every
participant of the updated list is `paid`) or is left exactly as it was
before the call; in particular a first payment on a `pending` bill with
other participants still unpaid leaves the bill `pending`. -/
theorem recordPayment_never_collecting :
    ∀ (bill : Bill) (fid : Nat) (amt : ℚ) (tx now : String) (b' : Bill),
      recordPayment (some bill) fid amt tx now = Except.ok b' →
      (b'.status = BStatus.completed ∧
          ∀ p ∈ b'.participants, p.status = PStatus.paid) ∨
      (b'.status = bill.status ∧
          ¬ ∀ p ∈ b'.participants, p.status = PStatus.paid) := by
  intro bill fid amt tx now b' h
  obtain ⟨ps', hsp, hps, -, hstatus⟩ :=
    updateParticipantPayment_some (recordPayment_ok_update h)
  subst hps
  by_cases hall : ∀ p ∈ b'.participants, p.status = PStatus.paid
  · exact Or.inl ⟨by rw [hstatus, if_pos hall], hall⟩
  · exact Or.inr ⟨by rw [hstatus, if_neg hall], hall⟩

/-- **C4** (witness): the amended theorem applied to the first payment on
the pending two-participant bill. -/
theorem recordPayment_never_collecting_witness :
    (cBillPend2After.status = BStatus.completed ∧
        ∀ p ∈ cBillPend2After.participants, p.status = PStatus.paid) ∨
    (cBillPend2After.status = cBillPend2.status ∧
        ¬ ∀ p ∈ cBillPend2After.participants, p.status = PStatus.paid) :=
  recordPayment_never_collecting cBillPend2 1 10 "0xt" "t1" cBillPend2After
    eval_pay_pend2

/-- **C5** (confirmed).  For every bill and participant already `paid`,
`recordPayment` fails with the duplicate-payment error
(`"Payment already completed for this participant"`), whatever the amount,
transaction hash or timestamp of the call — so every repeated call fails
identically — and the call leaves the stored bill unchanged (the route
returns before any store write). -/
theorem recordPayment_duplicate_conflict :
    ∀ (bill : Bill) (fid : Nat) (amt : ℚ) (tx now : String)
      (p : BillParticipant), fid ≠ 0 → amt ≠ 0 → tx ≠ "" →
      bill.participants.find? (fun q => q.fid == fid) = some p →
      p.status = PStatus.paid →
      payRouteStore (some bill) fid amt tx now
        = (some bill, Except.error PayError.alreadyPaid) := by
  intro bill fid amt tx now p hfid hamt htx hfind hpaid
  have hr : recordPayment (some bill) fid amt tx now
      = Except.error PayError.alreadyPaid := by
    simp only [recordPayment, hfind]
    rw [if_neg (by simp [hfid, hamt, htx]), if_pos hpaid]
  simp [payRouteStore, hr]

/-- **C5** (witness): the theorem applied to the bill whose creator has
already paid, for two different repeated calls. -/
theorem recordPayment_duplicate_conflict_witness :
    payRouteStore (some cBillPaid) 1 10 "0xt" "t2"
        = (some cBillPaid, Except.error PayError.alreadyPaid) ∧
    payRouteStore (some cBillPaid) 1 10 "0xother" "t3"
        = (some cBillPaid, Except.error PayError.alreadyPaid) :=
  ⟨recordPayment_duplicate_conflict cBillPaid 1 10 "0xt" "t2"
      (cPaidPart 1 10) (by decide) (by simp) (by simp) rfl rfl,
    recordPayment_duplicate_conflict cBillPaid 1 10 "0xother" "t3"
      (cPaidPart 1 10) (by decide) (by simp) (by simp) rfl rfl⟩

/-- **C6** (counterexample).  A non-creator (fid 99) requesting deletion
of a bill that already has a paid participant receives the authorization
error, not the conflict error: the creator check precedes the paid-guard,
so the conflict error is not returned "regardless of requestor identity".
-/
theorem deleteGuard_anyRequestor_cex :
    deleteBill (some cBillPaid) 99 = Except.error DeleteError.notCreator ∧
      DeleteError.notCreator ≠ DeleteError.hasPaidParticipant := by
  constructor
  · simp [deleteBill, cBillPaid, cBillPend2]
  · simp

/-- **C6** (amended).  When the requestor is the creator, `deleteBill` on
a bill with any `paid` participant fails with the conflict error
(`"Cannot delete bill with completed payments"`) and the bill is
unchanged; a non-creator requestor instead always receives the
authorization error first (the creator check precedes the paid-guard),
likewise leaving the bill unchanged. -/
theorem deleteBill_paidGuard_after_auth :
    (∀ (bill : Bill) (fid : Nat), fid ≠ bill.creatorFid →
      deleteRouteStore (some bill) fid
        = (some bill, Except.error DeleteError.notCreator)) ∧
    (∀ (bill : Bill), (∃ p ∈ bill.participants, p.status = PStatus.paid) →
      deleteRouteStore (some bill) bill.creatorFid
        = (some bill, Except.error DeleteError.hasPaidParticipant)) := by
  constructor
  · intro bill fid hne
    have hd : deleteBill (some bill) fid = Except.error DeleteError.notCreator := by
      simp only [deleteBill]
      rw [if_pos (fun hc => hne hc.symm)]
    simp [deleteRouteStore, hd]
  · intro bill hex
    have hany : bill.participants.any (fun p => p.status == PStatus.paid) = true := by
      rw [List.any_eq_true]
      obtain ⟨p, hm, hp⟩ := hex
      exact ⟨p, hm, by simp [hp]⟩
    have hd : deleteBill (some bill) bill.creatorFid
        = Except.error DeleteError.hasPaidParticipant := by
      simp only [deleteBill]
      rw [if_neg (by simp), if_pos hany]
    simp [deleteRouteStore, hd]

/-- **C6** (witness): both amended branches at the bill whose creator has
already paid. -/
theorem deleteBill_paidGuard_after_auth_witness :
    deleteRouteStore (some cBillPaid) 99
        = (some cBillPaid, Except.error DeleteError.notCreator) ∧
    deleteRouteStore (some cBillPaid) cBillPaid.creatorFid
        = (some cBillPaid, Except.error DeleteError.hasPaidParticipant) :=
  ⟨deleteBill_paidGuard_after_auth.1 cBillPaid 99 (by decide),
    deleteBill_paidGuard_after_auth.2 cBillPaid
      ⟨cPaidPart 1 10, by decide, rfl⟩⟩

/-- **C7** (counterexample).  A PATCH whose body sets `status` to
`completed` is applied as-is: the allow-list admits the `status` key
without restricting its value to `cancelled`. -/
theorem patch_statusCancellationOnly_cex :
    (patchBill (some cBillPend2) cPatchCompleted "t2").toOption.map
        (fun b => b.status) = some BStatus.completed ∧
      BStatus.completed ≠ BStatus.cancelled := by
  constructor
  · rfl
  · simp

/-- **C7** (amended).  `updateBillMetadata` applies only the allow-listed
fields `title`, `description`, `status`, `dueDate`, `tags`, silently
dropping every other field of the input (so `totalAmount`,
`participants`, `id`, `creatorFid`, `createdAt`, `splitType` and the
creator wallet address are unchanged by the operation), and fails with
"not found" when the bill does not exist; however the `status` field may
be set to any status value whatsoever — the route does not restrict the
status change to cancellation. -/
theorem patch_allowlist_frame :
    (∀ (bill : Bill) (r : PatchRequest) (now : String),
        (applyPatch bill r now).totalAmount = bill.totalAmount ∧
        (applyPatch bill r now).participants = bill.participants ∧
        (applyPatch bill r now).id = bill.id ∧
        (applyPatch bill r now).creatorFid = bill.creatorFid ∧
        (applyPatch bill r now).createdAt = bill.createdAt ∧
        (applyPatch bill r now).splitType = bill.splitType ∧
        (applyPatch bill r now).creatorWalletAddress = bill.creatorWalletAddress) ∧
    (∀ (r : PatchRequest) (now : String),
        patchBill none r now = Except.error PatchError.notFound) ∧
    (∀ (bill : Bill) (s : BStatus) (now : String),
        (applyPatch bill { emptyPatch with status := some s } now).status = s) := by
  refine ⟨?_, ?_, ?_⟩
  · intro bill r now
    exact ⟨rfl, rfl, rfl, rfl, rfl, rfl, rfl⟩
  · intro r now
    rfl
  · intro bill s now
    rfl

/-- **C8** (counterexample).  A storage-layer failure during the read is
reported to the caller as the 404 "Bill not found" outcome —
`BillStorage.getBill` catches the store error and returns `null`, which
the GET route cannot distinguish from an absent bill. -/
theorem storageFailure_notFound_cex :
    getBillRoute StoreState.failure = RouteOutcome.notFound ∧
      getBillRoute StoreState.failure ≠ RouteOutcome.serverError := by
  constructor
  · rfl
  · simp [getBillRoute, getBill]

/-- **C8** (amended).  The write-path error branches do carry distinct
HTTP statuses (not found 404, unauthorized 403, validation/conflict 400,
storage failure 500), but on the read path the four outcomes are NOT all
distinct: the GET route answers "not found" exactly when the store says
absent OR the store access fails, so a storage failure during `getBill`
is reported as "not found" rather than as a storage failure. -/
theorem errorOutcomes_partially_distinct :
    (∀ s : StoreState, getBillRoute s = RouteOutcome.notFound ↔
        s = StoreState.absent ∨ s = StoreState.failure) ∧
    (deleteStatusCode DeleteError.notFound = 404 ∧
      deleteStatusCode DeleteError.notCreator = 403 ∧
      deleteStatusCode DeleteError.hasPaidParticipant = 400 ∧
      deleteStatusCode DeleteError.storageFailed = 500 ∧
      payStatusCode PayError.amountMismatch = 400 ∧
      payStatusCode PayError.billNotFound = 404 ∧
      payStatusCode PayError.storageFailed = 500) := by
  constructor
  · intro s
    cases s with
    | absent => simp [getBillRoute, getBill]
    | stored b => simp [getBillRoute, getBill]
    | failure => simp [getBillRoute, getBill]
  · exact ⟨rfl, rfl, rfl, rfl, rfl, rfl, rfl⟩

/-- **C9** (confirmed).  In a `custom` split, every participant whose
supplied amount is absent or zero receives `amountOwed = 0` without any
error; likewise for a `percentage` split with an absent or zero
percentage; and `createBill` accepts the bill whenever the basic field
validation passes, the creator wallet resolves and the resulting sum of
`amountOwed` is within 0.01 of `totalAmount`. -/
theorem customZeroShare_and_epsilonAcceptance :
    (∀ (total : ℚ) (n : Nat) (p : ParticipantInput),
        p.amount = none ∨ p.amount = some 0 →
        (processParticipant SplitType.custom total n p).amountOwed = 0) ∧
    (∀ (total : ℚ) (n : Nat) (p : ParticipantInput),
        p.percentage = none ∨ p.percentage = some 0 →
        (processParticipant SplitType.percentage total n p).amountOwed = 0) ∧
    (∀ (req : CreateBillRequest) (w newId now : String),
        req.title ≠ "" → 0 < req.totalAmount → req.creatorFid ≠ 0 →
        req.participants ≠ [] →
        |sumOwed (req.participants.map (processParticipant req.splitType
            req.totalAmount req.participants.length)) - req.totalAmount| ≤ 1/100 →
        ∃ b, createBill req (some w) newId now = Except.ok b) := by
  refine ⟨?_, ?_, ?_⟩
  · intro total n p hp
    rcases hp with h | h
    · simp [processParticipant, rawOwed, h, jsRound2]
    · simp [processParticipant, rawOwed, h, jsRound2]
  · intro total n p hp
    rcases hp with h | h
    · simp [processParticipant, rawOwed, h, jsRound2]
    · simp [processParticipant, rawOwed, h, jsRound2]
  · intro req w newId now ht h0 hc hne hsum
    have g1 : ¬(req.title = "" ∨ req.totalAmount = 0 ∨ req.creatorFid = 0 ∨
        req.participants = []) := by
      push_neg
      exact ⟨ht, ne_of_gt h0, hc, hne⟩
    have g2 : ¬(req.totalAmount ≤ 0) := not_le.mpr h0
    have g3 : ¬(|sumOwed (req.participants.map (processParticipant req.splitType
        req.totalAmount req.participants.length)) - req.totalAmount| > 1/100) :=
      not_lt.mpr hsum
    cases hcb : createBill req (some w) newId now with
    | ok b => exact ⟨b, rfl⟩
    | error e =>
      exfalso
      simp only [createBill] at hcb
      rw [if_neg g1, if_neg g2, if_neg g3] at hcb
      cases hcb

/-- A two-participant custom split request: amounts 12 and 8 on a total
of 20, plus a third participant with no amount supplied. -/
def cReqCust3 : CreateBillRequest :=
  { cReqEq3 with
      totalAmount := 20
      splitType := SplitType.custom
      participants :=
        [{ pInput 1 with amount := some 12 },
          { pInput 2 with amount := some 8 },
          pInput 3] }

/-- The custom-split sum check for `cReqCust3`: 12 + 8 + 0 is exactly the
total of 20. -/
theorem eval_cReqCust3_sum :
    |sumOwed (cReqCust3.participants.map (processParticipant cReqCust3.splitType
        cReqCust3.totalAmount cReqCust3.participants.length))
      - cReqCust3.totalAmount| ≤ 1/100 := by
  norm_num [cReqCust3, cReqEq3, pInput, processParticipant, rawOwed, jsRound2,
    sumOwed, round_eq]

/-- **C9** (witness): the three conjuncts at concrete inputs — a custom
participant with no amount, a percentage participant with percentage 0,
and the acceptance of the concrete custom split `cReqCust3`. -/
theorem customZeroShare_witness :
    (processParticipant SplitType.custom 20 3 (pInput 3)).amountOwed = 0 ∧
    (processParticipant SplitType.percentage 20 3
        { pInput 3 with percentage := some 0 }).amountOwed = 0 ∧
    ∃ b, createBill cReqCust3 (some "0xabc") "bill-7" "t0" = Except.ok b :=
  ⟨customZeroShare_and_epsilonAcceptance.1 20 3 (pInput 3) (Or.inl rfl),
    customZeroShare_and_epsilonAcceptance.2.1 20 3
      { pInput 3 with percentage := some 0 } (Or.inr rfl),
    customZeroShare_and_epsilonAcceptance.2.2 cReqCust3 "0xabc" "bill-7" "t0"
      (by simp [cReqCust3, cReqEq3]) (by norm_num [cReqCust3, cReqEq3])
      (by simp [cReqCust3, cReqEq3]) (by simp [cReqCust3, cReqEq3])
      eval_cReqCust3_sum⟩

/-- **C10** (counterexample).  A participant whose `amountOwed` is 0 CAN
record a payment: paying 0.01 passes the falsy-field guard (0.01 is
truthy) and the amount check (`|0.01 - 0| ≤ 0.01`), so the payment
succeeds — refuting "can never record a payment". -/
theorem zeroOwed_neverPay_cex :
    recordPayment (some cBillZero) 2 (1/100) "0xt" "t1"
      = Except.ok cBillZeroAfter := by
  rw [eval_pay_zero]

/-- **C10** (amended).  `recordPayment` rejects any request whose
`participantFid` is 0 or whose `amount` is 0 with the missing-fields
error, before looking up the bill; consequently a participant whose
`amountOwed` is 0 cannot pay exactly 0 — but they can still record a
payment with any nonzero amount of magnitude at most 0.01, since the
amount-matches-owed check uses the 0.01 epsilon. -/
theorem recordPayment_falsyGuard_and_zeroOwed :
    (∀ (store : Option Bill) (fid : Nat) (amt : ℚ) (tx now : String),
        fid = 0 ∨ amt = 0 →
        recordPayment store fid amt tx now = Except.error PayError.missingFields) ∧
    (∀ (bill : Bill) (fid : Nat) (amt : ℚ) (tx now : String)
        (p : BillParticipant), fid ≠ 0 → amt ≠ 0 → tx ≠ "" →
        bill.participants.find? (fun q => q.fid == fid) = some p →
        p.status ≠ PStatus.paid → p.amountOwed = 0 → |amt| ≤ 1/100 →
        ∃ b', recordPayment (some bill) fid amt tx now = Except.ok b') := by
  constructor
  · intro store fid amt tx now h
    simp only [recordPayment]
    rw [if_pos (by tauto)]
  · intro bill fid amt tx now p hfid hamt htx hfind hnp howed habs
    obtain ⟨ps', hsp⟩ := setFirstPayment_some_of_find?
      { paidAt := now, paymentHash := tx, status := PStatus.paid } hfind
    cases hupd : updateParticipantPayment bill fid
        { paidAt := now, paymentHash := tx, status := PStatus.paid } now with
    | none =>
      simp only [updateParticipantPayment, hsp] at hupd
      cases hupd
    | some b' =>
      refine ⟨b', ?_⟩
      simp only [recordPayment, hfind, hupd]
      rw [if_neg (by simp [hfid, hamt, htx]), if_neg hnp,
        if_neg (by rw [howed, sub_zero]; exact not_lt.mpr habs)]

/-- **C10** (witness): both conjuncts at concrete inputs — a call with
amount 0 rejected before lookup, and the 0-owed participant of
`cBillZero` succeeding with amount 0.01. -/
theorem recordPayment_falsyGuard_witness :
    recordPayment none 7 0 "0xt" "t1" = Except.error PayError.missingFields ∧
    ∃ b', recordPayment (some cBillZero) 2 (1/100) "0xt" "t1" = Except.ok b' :=
  ⟨recordPayment_falsyGuard_and_zeroOwed.1 none 7 0 "0xt" "t1" (Or.inr rfl),
    recordPayment_falsyGuard_and_zeroOwed.2 cBillZero 2 (1/100) "0xt" "t1"
      (cPart 2 0) (by decide) (by norm_num) (by simp) rfl (by decide) rfl
      (by norm_num [abs_le])⟩

end ShareTheBill
